import Mathlib

/-!
Shallow embedding of the SipSession media-session orchestrator of the ring
client library (the sip-session source file under src).

The external collaborators (the SipCall signaling client, the RtpSplitter
transport handles, the stun helpers of rtp-utils, the ffmpeg subprocess and
the rxjs timer) are modelled through their observable effects on an explicit
session state: every call the orchestrator makes to one of them is recorded
in a counter or an event list of the state.
-/

/-- Identity of one of the four transport splitters handed to the session
constructor (audio and video, RTP and RTCP).  The orchestrator fields
audioRtcpSplitter and videoRtcpSplitter are mutable references into this
set of underlying handles; the RTP fields are readonly. -/
inductive SplitterId
  | audioRtp
  | audioRtcp
  | videoRtp
  | videoRtcp
deriving DecidableEq, Repr

/-- The stream type tag passed to sendStunBindingRequest. -/
inductive StreamType
  | audio
  | video
deriving DecidableEq, Repr

/-- Which local user fragment field of the sip call a stun binding request
reads (sipCall.audioUfrag or sipCall.videoUfrag). -/
inductive UfragSel
  | audio
  | video
deriving DecidableEq, Repr

/-- The arguments of one sendStunBindingRequest call made by the
orchestrator: which splitter identities and which ufrag field it passes. -/
structure StunRequest where
  rtpSplitter : SplitterId
  rtcpSplitter : SplitterId
  localUfrag : UfragSel
  type : StreamType
deriving DecidableEq, Repr

/-- Signaling parameters; dingId is the field read for the expired-session
refresh (camera.getUpdatedSipOptions(this.sipOptions.dingId)). -/
structure SipOptions where
  dingId : String
deriving DecidableEq, Repr

/-- Remote media parameters of one stream inside the RtpDescription returned
by invite: IP omitted, RTP port, RTCP port, optional ICE user fragment.
cryptoLine stands for the result of createCryptoLine applied to the crypto
parameters of the stream (createCryptoLine lives in the external
camera-utils package and is consumed opaquely as a string producer). -/
structure StreamDesc where
  port : Nat
  rtcpPort : Nat
  iceUFrag : Option String
  cryptoLine : String
deriving DecidableEq, Repr

/-- The negotiated remote media description (RtpDescription). -/
structure RtpDescription where
  audio : StreamDesc
  video : StreamDesc
deriving DecidableEq, Repr

/-- ffmpegOptions.video in the source has type SpawnInput[] | false |
undefined: an explicit disable marker, explicit arguments, or absent. -/
inductive VideoSpec
  | disabled
  | args (a : List String)
  | unspecified
deriving DecidableEq, Repr

/-- The FfmpegOptions transcode spec of the source. -/
structure FfmpegOptions where
  input : Option (List String)
  video : VideoSpec
  audio : Option (List String)
  output : List String
deriving DecidableEq, Repr

/-- Modelled from the spec: rtp-utils (a file of this repository that is not
under src) exposes isStunMessage(bytes) -> bool, consumed opaquely.  A
packet is modelled together with its stun classification. -/
structure Packet where
  isStun : Bool
  payload : List Nat
deriving DecidableEq, Repr

/-- Modelled from the spec: the opaque stun classifier reads the packet
classification. -/
def isStunMessage (m : Packet) : Bool := m.isStun

/-- Behavior of the message handler that forwardPacketsToFfmpeg registers on
a splitter: stun messages are dropped (null), every other message is
redirected to the given local ffmpeg listening port. -/
def ffmpegMessageHandler (port : Nat) (message : Packet) : Option Nat :=
  if isStunMessage message then
    none
  else
    some port

/-- The literal argument list built for the FfmpegProcess. -/
def ffmpegArgs (ffmpegOptions : FfmpegOptions) : List String :=
  [ "-hide_banner", "-protocol_whitelist", "pipe,udp,rtp,file,crypto",
    "-f", "sdp" ]
    ++ ffmpegOptions.input.getD []
    ++ [ "-i", "pipe:" ]
    ++ ffmpegOptions.audio.getD ["-acodec", "aac"]
    ++ (match ffmpegOptions.video with
        | VideoSpec.disabled => []
        | VideoSpec.args a => a
        | VideoSpec.unspecified => ["-vcodec", "copy"])
    ++ ffmpegOptions.output

/-- The inputSdpLines list of startTranscoder, before filtering.  The two
port-bearing lines are built by string interpolation in the source. -/
def inputSdpLines (audioPort videoPort : Nat) (remoteRtpOptions : RtpDescription)
    (transcodeVideoStream : Bool) : List String :=
  let audioRtcpPort := audioPort + 1
  let videoRtcpPort := videoPort + 1
  let base : List String :=
    [ "v=0",
      "o=105202070 3747 461 IN IP4 127.0.0.1",
      "s=Talk",
      "c=IN IP4 127.0.0.1",
      "b=AS:380",
      "t=0 0",
      "a=rtcp-xr:rcvr-rtt=all:10000 stat-summary=loss,dup,jitt,TTL voip-metrics",
      "m=audio " ++ toString audioPort ++ " RTP/SAVP 0 101",
      "a=rtpmap:0 PCMU/8000",
      remoteRtpOptions.audio.cryptoLine,
      "a=rtcp:" ++ toString audioRtcpPort ++ " IN IP4 127.0.0.1" ]
  if transcodeVideoStream then
    base ++
      [ "m=video " ++ toString videoPort ++ " RTP/SAVP 99",
        "a=rtpmap:99 H264/90000",
        remoteRtpOptions.video.cryptoLine,
        "a=rtcp:" ++ toString videoRtcpPort ++ " IN IP4 127.0.0.1" ]
  else
    base

/-- The document written to the process stdin: falsy (empty) lines filtered,
then joined with newline separators. -/
def writtenSdp (audioPort videoPort : Nat) (remoteRtpOptions : RtpDescription)
    (transcodeVideoStream : Bool) : String :=
  String.intercalate "\n"
    ((inputSdpLines audioPort videoPort remoteRtpOptions transcodeVideoStream).filter
      (fun x => x != ""))

/-- The whole observable state of one SipSession together with the call
counters of its collaborators. -/
structure SessionState where
  hasStarted : Bool
  hasCallEnded : Bool
  hasSipCall : Bool
  /-- the readonly constructor field sipOptions; never reassigned -/
  sipOptions : SipOptions
  /-- the options the current sip call was built from -/
  sipCallOptions : SipOptions
  sipCreateCount : Nat
  sipDestroyCount : Nat
  sendByeCount : Nat
  endedNotifyCount : Nat
  audioRtcpRef : SplitterId
  videoRtcpRef : SplitterId
  closeAudioRtp : Nat
  closeAudioRtcp : Nat
  closeVideoRtp : Nat
  closeVideoRtcp : Nat
  activeSubscriptions : Nat
  unsubscribeCount : Nat
  /-- splitters createStunResponder has been installed on -/
  responders : List SplitterId
  /-- rounds of sendStunBindingRequest calls issued synchronously -/
  stunRounds : List (List StunRequest)
  /-- whether the timer(0, 500) keepalive subscription is active -/
  keepaliveSubscribed : Bool
  /-- forwarding handlers registered by startTranscoder: underlying splitter
  and the local ffmpeg port its non-stun traffic is redirected to -/
  ffHandlers : List (SplitterId × Nat)
  sdpWritten : Option String
  ffmpegStarted : Bool
deriving DecidableEq, Repr

/-- close() on the underlying handle id: bumps that handle's close counter. -/
def closeSplitter (s : SessionState) (id : SplitterId) : SessionState :=
  { s with
    closeAudioRtp := s.closeAudioRtp + (if id = SplitterId.audioRtp then 1 else 0),
    closeAudioRtcp := s.closeAudioRtcp + (if id = SplitterId.audioRtcp then 1 else 0),
    closeVideoRtp := s.closeVideoRtp + (if id = SplitterId.videoRtp then 1 else 0),
    closeVideoRtcp := s.closeVideoRtcp + (if id = SplitterId.videoRtcp then 1 else 0) }

/-- Number of close() invocations an underlying handle has received. -/
def closeCount (s : SessionState) : SplitterId → Nat
  | SplitterId.audioRtp => s.closeAudioRtp
  | SplitterId.audioRtcp => s.closeAudioRtcp
  | SplitterId.videoRtp => s.closeVideoRtp
  | SplitterId.videoRtcp => s.closeVideoRtcp

/-- createSipCall: destroys a prior sip call when one exists, constructs a
new one from the given options and subscribes its onEndedByRemote
notification into the session subscription set. -/
def createSipCall (sipOptions : SipOptions) (s : SessionState) : SessionState :=
  let s1 :=
    if s.hasSipCall then
      { s with sipDestroyCount := s.sipDestroyCount + 1 }
    else
      s
  { s1 with
    hasSipCall := true,
    sipCallOptions := sipOptions,
    sipCreateCount := s1.sipCreateCount + 1,
    activeSubscriptions := s1.activeSubscriptions + 1 }

/-- The state before the constructor field initializers run. -/
def mkBlankState (sipOptions : SipOptions) : SessionState :=
  { hasStarted := false
    hasCallEnded := false
    hasSipCall := false
    sipOptions := sipOptions
    sipCallOptions := sipOptions
    sipCreateCount := 0
    sipDestroyCount := 0
    sendByeCount := 0
    endedNotifyCount := 0
    audioRtcpRef := SplitterId.audioRtcp
    videoRtcpRef := SplitterId.videoRtcp
    closeAudioRtp := 0
    closeAudioRtcp := 0
    closeVideoRtp := 0
    closeVideoRtcp := 0
    activeSubscriptions := 0
    unsubscribeCount := 0
    responders := []
    stunRounds := []
    keepaliveSubscribed := false
    ffHandlers := []
    sdpWritten := none
    ffmpegStarted := false }

/-- A freshly constructed SipSession: the sipCall field initializer runs
createSipCall on the constructor options (no prior call to destroy). -/
def initialState (sipOptions : SipOptions) : SessionState :=
  createSipCall sipOptions (mkBlankState sipOptions)

/-- The private callEnded(sendBye) teardown routine: guarded by
hasCallEnded; sends bye when asked, publishes the one-time call-ended
notification, destroys the sip call, closes the four splitter references in
order, and cancels every session-scoped subscription (which also cancels
the keepalive timer subscription when present). -/
def callEnded (sendBye : Bool) (s : SessionState) : SessionState :=
  if s.hasCallEnded then
    s
  else
    let s1 := { s with hasCallEnded := true }
    let s2 :=
      if sendBye then
        { s1 with sendByeCount := s1.sendByeCount + 1 }
      else
        s1
    let s3 := { s2 with
      endedNotifyCount := s2.endedNotifyCount + 1,
      sipDestroyCount := s2.sipDestroyCount + 1 }
    let s4 := closeSplitter s3 SplitterId.audioRtp
    let s5 := closeSplitter s4 s4.audioRtcpRef
    let s6 := closeSplitter s5 SplitterId.videoRtp
    let s7 := closeSplitter s6 s6.videoRtcpRef
    { s7 with
      activeSubscriptions := 0,
      unsubscribeCount := s7.unsubscribeCount + 1,
      keepaliveSubscribed := false }

/-- The public stop(): callEnded with a bye. -/
def stop (s : SessionState) : SessionState := callEnded true s

/-- The three teardown triggers of the source: an explicit stop, the
onEndedByRemote notification (callEnded false), and the ffmpeg exit
callback (callEnded true). -/
inductive TeardownTrigger
  | explicitStop
  | remoteEnded
  | processExit
deriving DecidableEq, Repr

/-- Whether a trigger reaches callEnded with sendBye true. -/
def triggerSendsBye : TeardownTrigger → Bool
  | TeardownTrigger.explicitStop => true
  | TeardownTrigger.remoteEnded => false
  | TeardownTrigger.processExit => true

/-- Run a sequence of teardown triggers against the session. -/
def runTriggers (ts : List TeardownTrigger) (s : SessionState) : SessionState :=
  ts.foldl (fun st t => callEnded (triggerSendsBye t) st) s

/-- One sendStunRequests round.  Note the source passes
this.audioRtcpSplitter as the rtcpSplitter of the video request as well. -/
def sendStunRequests (s : SessionState) : List StunRequest :=
  [ { rtpSplitter := SplitterId.audioRtp, rtcpSplitter := s.audioRtcpRef,
      localUfrag := UfragSel.audio, type := StreamType.audio },
    { rtpSplitter := SplitterId.videoRtp, rtcpSplitter := s.audioRtcpRef,
      localUfrag := UfragSel.video, type := StreamType.video } ]

/-- Register one forwarding handler (forwardPacketsToFfmpeg). -/
def addFfHandler (s : SessionState) (id : SplitterId) (port : Nat) : SessionState :=
  { s with ffHandlers := s.ffHandlers ++ [(id, port)] }

/-- startTranscoder: spawns the ffmpeg process (its exit callback is a
callEnded-true trigger), registers the video forwarding handlers when video
transcoding is enabled, subscribes the one-time call-ended notification to
stop the process, writes the filtered sdp document to stdin, and registers
the audio forwarding handlers. -/
def startTranscoder (ffmpegOptions : FfmpegOptions) (remoteRtpOptions : RtpDescription)
    (audioPort videoPort : Nat) (s : SessionState) : SessionState :=
  let transcodeVideoStream : Bool := ffmpegOptions.video != VideoSpec.disabled
  let audioRtcpPort := audioPort + 1
  let videoRtcpPort := videoPort + 1
  let s1 :=
    if transcodeVideoStream then
      let sV := addFfHandler s SplitterId.videoRtp videoPort
      addFfHandler sV sV.videoRtcpRef videoRtcpPort
    else
      s
  let s2 := { s1 with
    ffmpegStarted := true,
    sdpWritten :=
      some (writtenSdp audioPort videoPort remoteRtpOptions transcodeVideoStream) }
  let s3 := addFfHandler s2 SplitterId.audioRtp audioPort
  addFfHandler s3 s3.audioRtcpRef audioRtcpPort

/-- The rtcp-mux detection block of start: per stream, when the remote RTP
port equals the remote RTCP port, the current RTCP reference is closed and
replaced by the RTP splitter. -/
def applyRtcpMux (rtpDescription : RtpDescription) (s : SessionState) : SessionState :=
  let s1 :=
    if rtpDescription.audio.port = rtpDescription.audio.rtcpPort then
      let sC := closeSplitter s s.audioRtcpRef
      { sC with audioRtcpRef := SplitterId.audioRtp }
    else
      s
  if rtpDescription.video.port = rtpDescription.video.rtcpPort then
    let sC := closeSplitter s1 s1.videoRtcpRef
    { sC with videoRtcpRef := SplitterId.videoRtp }
  else
    s1

/-- The NAT-traversal branch of start: with a video ICE user fragment,
install stun responders on the audio and video RTP splitters and send one
round immediately; otherwise subscribe the timer(0, 500) keepalive that
invokes sendStunRequests on every tick. -/
def natTraversalStep (rtpDescription : RtpDescription) (s : SessionState) : SessionState :=
  if rtpDescription.video.iceUFrag.isSome then
    { s with
      responders := s.responders ++ [SplitterId.audioRtp, SplitterId.videoRtp],
      stunRounds := s.stunRounds ++ [sendStunRequests s] }
  else
    { s with
      keepaliveSubscribed := true,
      activeSubscriptions := s.activeSubscriptions + 1 }

/-- The two one-shot first-packet latch subscriptions added at the end of a
successful start. -/
def addLatchSubscriptions (s : SessionState) : SessionState :=
  { s with activeSubscriptions := s.activeSubscriptions + 2 }

/-- The body of the try block of start after a successful invite: optional
transcoder, rtcp-mux detection, NAT-traversal branch, latch subscriptions. -/
def startSuccessState (audioPort videoPort : Nat) (ffmpegOptions : Option FfmpegOptions)
    (rtpDescription : RtpDescription) (s : SessionState) : SessionState :=
  let s1 :=
    match ffmpegOptions with
    | some o => startTranscoder o rtpDescription audioPort videoPort s
    | none => s
  let s2 := applyRtcpMux rtpDescription s1
  let s3 := natTraversalStep rtpDescription s2
  addLatchSubscriptions s3

/-- Modelled from the spec: the sip-call file (not under src) exports the
expiredDingError sentinel; an invite either returns a description, fails
with that sentinel, or fails with some other error. -/
inductive SipError
  | expiredDing
  | failed (code : Nat)
deriving DecidableEq, Repr

/-- One outcome of one sipCall.invite() round trip. -/
inductive InviteOutcome
  | ok (rtpDescription : RtpDescription)
  | err (e : SipError)
deriving DecidableEq, Repr

/-- The two usage errors thrown at the top of start. -/
inductive UsageError
  | alreadyStarted
  | alreadyEnded
deriving DecidableEq, Repr

/-- Result of a start invocation, carrying the resulting session state. -/
inductive StartResult
  | ok (rtpDescription : RtpDescription) (s : SessionState)
  | usageError (u : UsageError) (s : SessionState)
  | fatal (e : SipError) (s : SessionState)
  | noInvite (s : SessionState)
deriving DecidableEq, Repr

/-- Environment of a start invocation: the two reserved local ports and the
device collaborator answering getUpdatedSipOptions on the expired retry. -/
structure StartEnv where
  videoPort : Nat
  audioPort : Nat
  updatedSipOptions : String → SipOptions

/-- The catch branch of start for the expired sentinel: refreshed options
are fetched from the device with the constructor dingId, the sip call is
rebuilt against them, and the started flag is reset before start is
re-entered. -/
def retryState (env : StartEnv) (s : SessionState) : SessionState :=
  { createSipCall (env.updatedSipOptions s.sipOptions.dingId)
      { s with hasStarted := true } with
    hasStarted := false }

/-- start(ffmpegOptions): the AlreadyStarted guard, the hasStarted flag
assignment, the AlreadyEnded guard, then the invite; a success runs the try
body, the expired sentinel rebuilds the sip call, resets the flag and
re-enters start with the same spec, and any other failure tears the session
down with a bye and is re-raised.  The invites list supplies the outcome of
each successive invite round trip. -/
def start (env : StartEnv) (ffmpegOptions : Option FfmpegOptions) :
    List InviteOutcome → SessionState → StartResult
  | [], s =>
      if s.hasStarted then
        StartResult.usageError UsageError.alreadyStarted s
      else
        let s1 := { s with hasStarted := true }
        if s1.hasCallEnded then
          StartResult.usageError UsageError.alreadyEnded s1
        else
          StartResult.noInvite s1
  | invite :: rest, s =>
      if s.hasStarted then
        StartResult.usageError UsageError.alreadyStarted s
      else
        let s1 := { s with hasStarted := true }
        if s1.hasCallEnded then
          StartResult.usageError UsageError.alreadyEnded s1
        else
          match invite with
          | InviteOutcome.ok rtpDescription =>
              StartResult.ok rtpDescription
                (startSuccessState env.audioPort env.videoPort ffmpegOptions
                  rtpDescription s1)
          | InviteOutcome.err SipError.expiredDing =>
              start env ffmpegOptions rest (retryState env s)
          | InviteOutcome.err e =>
              StartResult.fatal e (callEnded true s1)

/-- Project the session state out of a start result. -/
def resultState : StartResult → SessionState
  | StartResult.ok _ s => s
  | StartResult.usageError _ s => s
  | StartResult.fatal _ s => s
  | StartResult.noInvite s => s

/-- Run start on a freshly constructed session and keep the state. -/
def runStart (env : StartEnv) (ffmpegOptions : Option FfmpegOptions)
    (invites : List InviteOutcome) (sipOptions : SipOptions) : SessionState :=
  resultState (start env ffmpegOptions invites (initialState sipOptions))

/-- Total number of sendStunRequests rounds issued by time t milliseconds
after start returned: the rounds sent synchronously during start, plus the
rxjs timer(0, 500) ticks at 0, 500, 1000, ... while that subscription is
active. -/
def stunRoundsByTime (s : SessionState) (t : Nat) : Nat :=
  s.stunRounds.length + (if s.keepaliveSubscribed then t / 500 + 1 else 0)

/-- A media line of the sdp document: a line whose first two characters are
the m= tag. -/
def isMediaLine (l : String) : Bool :=
  match l.data with
  | 'm' :: '=' :: _ => true
  | _ => false

/-- Number of media lines in a line list. -/
def mediaLineCount (lines : List String) : Nat :=
  (lines.filter isMediaLine).length

/-- Test fixtures: concrete inputs used by the closed instances below. -/
def opts0 : SipOptions := { dingId := "ding-1" }

def env0 : StartEnv :=
  { videoPort := 51000, audioPort := 52000,
    updatedSipOptions := fun _ => { dingId := "ding-2" } }

def audioDesc0 : StreamDesc :=
  { port := 11000, rtcpPort := 11001, iceUFrag := none,
    cryptoLine := "a=crypto:1 AES_CM_128_HMAC_SHA1_80 inline:audioKey" }

def videoDesc0 : StreamDesc :=
  { port := 12000, rtcpPort := 12001, iceUFrag := some "vUfrag",
    cryptoLine := "a=crypto:1 AES_CM_128_HMAC_SHA1_80 inline:videoKey" }

def descIce : RtpDescription := { audio := audioDesc0, video := videoDesc0 }

def descNoIce : RtpDescription :=
  { audio := audioDesc0, video := { videoDesc0 with iceUFrag := none } }

def descMuxAudio : RtpDescription :=
  { audio := { audioDesc0 with rtcpPort := 11000 }, video := videoDesc0 }

def descMuxBoth : RtpDescription :=
  { audio := { audioDesc0 with rtcpPort := 11000 },
    video := { videoDesc0 with rtcpPort := 12000 } }

def ffoDefault : FfmpegOptions :=
  { input := none, video := VideoSpec.unspecified, audio := none,
    output := ["out.mp4"] }

def ffoNoVideo : FfmpegOptions :=
  { input := none, video := VideoSpec.disabled, audio := none,
    output := ["out.aac"] }

def packetStun : Packet := { isStun := true, payload := [0, 1] }

def packetMedia : Packet := { isStun := false, payload := [2, 3] }

/-! ## Helper lemmas about the teardown routine -/

theorem callEnded_of_ended (b : Bool) (s : SessionState) (h : s.hasCallEnded = true) :
    callEnded b s = s := by
  simp [callEnded, h]

theorem callEnded_hasCallEnded (b : Bool) (s : SessionState) :
    (callEnded b s).hasCallEnded = true := by
  cases hc : s.hasCallEnded
  · cases b <;> simp [callEnded, hc, closeSplitter]
  · simp [callEnded, hc]

theorem callEnded_callEnded (b b0 : Bool) (s : SessionState) :
    callEnded b (callEnded b0 s) = callEnded b0 s :=
  callEnded_of_ended b _ (callEnded_hasCallEnded b0 s)

theorem runTriggers_of_ended (ts : List TeardownTrigger) (s : SessionState)
    (h : s.hasCallEnded = true) : runTriggers ts s = s := by
  induction ts generalizing s with
  | nil => rfl
  | cons t ts ih =>
      show runTriggers ts (callEnded (triggerSendsBye t) s) = s
      rw [callEnded_of_ended _ _ h]
      exact ih s h

/-! ## Frame lemmas for the start pipeline stages -/

@[simp]
theorem startTranscoder_hasCallEnded (fo : FfmpegOptions) (d : RtpDescription)
    (a v : Nat) (s : SessionState) :
    (startTranscoder fo d a v s).hasCallEnded = s.hasCallEnded := by
  cases hb : (fo.video != VideoSpec.disabled) <;> simp [startTranscoder, addFfHandler, hb]

@[simp]
theorem startTranscoder_audioRtcpRef (fo : FfmpegOptions) (d : RtpDescription)
    (a v : Nat) (s : SessionState) :
    (startTranscoder fo d a v s).audioRtcpRef = s.audioRtcpRef := by
  cases hb : (fo.video != VideoSpec.disabled) <;> simp [startTranscoder, addFfHandler, hb]

@[simp]
theorem startTranscoder_videoRtcpRef (fo : FfmpegOptions) (d : RtpDescription)
    (a v : Nat) (s : SessionState) :
    (startTranscoder fo d a v s).videoRtcpRef = s.videoRtcpRef := by
  cases hb : (fo.video != VideoSpec.disabled) <;> simp [startTranscoder, addFfHandler, hb]

@[simp]
theorem startTranscoder_closeAudioRtp (fo : FfmpegOptions) (d : RtpDescription)
    (a v : Nat) (s : SessionState) :
    (startTranscoder fo d a v s).closeAudioRtp = s.closeAudioRtp := by
  cases hb : (fo.video != VideoSpec.disabled) <;> simp [startTranscoder, addFfHandler, hb]

@[simp]
theorem startTranscoder_closeAudioRtcp (fo : FfmpegOptions) (d : RtpDescription)
    (a v : Nat) (s : SessionState) :
    (startTranscoder fo d a v s).closeAudioRtcp = s.closeAudioRtcp := by
  cases hb : (fo.video != VideoSpec.disabled) <;> simp [startTranscoder, addFfHandler, hb]

@[simp]
theorem startTranscoder_closeVideoRtp (fo : FfmpegOptions) (d : RtpDescription)
    (a v : Nat) (s : SessionState) :
    (startTranscoder fo d a v s).closeVideoRtp = s.closeVideoRtp := by
  cases hb : (fo.video != VideoSpec.disabled) <;> simp [startTranscoder, addFfHandler, hb]

@[simp]
theorem startTranscoder_closeVideoRtcp (fo : FfmpegOptions) (d : RtpDescription)
    (a v : Nat) (s : SessionState) :
    (startTranscoder fo d a v s).closeVideoRtcp = s.closeVideoRtcp := by
  cases hb : (fo.video != VideoSpec.disabled) <;> simp [startTranscoder, addFfHandler, hb]

@[simp]
theorem startTranscoder_responders (fo : FfmpegOptions) (d : RtpDescription)
    (a v : Nat) (s : SessionState) :
    (startTranscoder fo d a v s).responders = s.responders := by
  cases hb : (fo.video != VideoSpec.disabled) <;> simp [startTranscoder, addFfHandler, hb]

@[simp]
theorem startTranscoder_stunRounds (fo : FfmpegOptions) (d : RtpDescription)
    (a v : Nat) (s : SessionState) :
    (startTranscoder fo d a v s).stunRounds = s.stunRounds := by
  cases hb : (fo.video != VideoSpec.disabled) <;> simp [startTranscoder, addFfHandler, hb]

@[simp]
theorem startTranscoder_keepaliveSubscribed (fo : FfmpegOptions) (d : RtpDescription)
    (a v : Nat) (s : SessionState) :
    (startTranscoder fo d a v s).keepaliveSubscribed = s.keepaliveSubscribed := by
  cases hb : (fo.video != VideoSpec.disabled) <;> simp [startTranscoder, addFfHandler, hb]

@[simp]
theorem applyRtcpMux_hasCallEnded (d : RtpDescription) (s : SessionState) :
    (applyRtcpMux d s).hasCallEnded = s.hasCallEnded := by
  by_cases h1 : d.audio.port = d.audio.rtcpPort <;>
    by_cases h2 : d.video.port = d.video.rtcpPort <;>
    simp [applyRtcpMux, closeSplitter, h1, h2]

@[simp]
theorem applyRtcpMux_responders (d : RtpDescription) (s : SessionState) :
    (applyRtcpMux d s).responders = s.responders := by
  by_cases h1 : d.audio.port = d.audio.rtcpPort <;>
    by_cases h2 : d.video.port = d.video.rtcpPort <;>
    simp [applyRtcpMux, closeSplitter, h1, h2]

@[simp]
theorem applyRtcpMux_stunRounds (d : RtpDescription) (s : SessionState) :
    (applyRtcpMux d s).stunRounds = s.stunRounds := by
  by_cases h1 : d.audio.port = d.audio.rtcpPort <;>
    by_cases h2 : d.video.port = d.video.rtcpPort <;>
    simp [applyRtcpMux, closeSplitter, h1, h2]

@[simp]
theorem applyRtcpMux_keepaliveSubscribed (d : RtpDescription) (s : SessionState) :
    (applyRtcpMux d s).keepaliveSubscribed = s.keepaliveSubscribed := by
  by_cases h1 : d.audio.port = d.audio.rtcpPort <;>
    by_cases h2 : d.video.port = d.video.rtcpPort <;>
    simp [applyRtcpMux, closeSplitter, h1, h2]

@[simp]
theorem applyRtcpMux_ffHandlers (d : RtpDescription) (s : SessionState) :
    (applyRtcpMux d s).ffHandlers = s.ffHandlers := by
  by_cases h1 : d.audio.port = d.audio.rtcpPort <;>
    by_cases h2 : d.video.port = d.video.rtcpPort <;>
    simp [applyRtcpMux, closeSplitter, h1, h2]

@[simp]
theorem applyRtcpMux_audioRtcpRef (d : RtpDescription) (s : SessionState) :
    (applyRtcpMux d s).audioRtcpRef =
      if d.audio.port = d.audio.rtcpPort then SplitterId.audioRtp else s.audioRtcpRef := by
  by_cases h1 : d.audio.port = d.audio.rtcpPort <;>
    by_cases h2 : d.video.port = d.video.rtcpPort <;>
    simp [applyRtcpMux, closeSplitter, h1, h2]

@[simp]
theorem applyRtcpMux_videoRtcpRef (d : RtpDescription) (s : SessionState) :
    (applyRtcpMux d s).videoRtcpRef =
      if d.video.port = d.video.rtcpPort then SplitterId.videoRtp else s.videoRtcpRef := by
  by_cases h1 : d.audio.port = d.audio.rtcpPort <;>
    by_cases h2 : d.video.port = d.video.rtcpPort <;>
    simp [applyRtcpMux, closeSplitter, h1, h2]

@[simp]
theorem applyRtcpMux_closeAudioRtp (d : RtpDescription) (s : SessionState) :
    (applyRtcpMux d s).closeAudioRtp = s.closeAudioRtp
      + (if d.audio.port = d.audio.rtcpPort ∧ s.audioRtcpRef = SplitterId.audioRtp
          then 1 else 0)
      + (if d.video.port = d.video.rtcpPort ∧ s.videoRtcpRef = SplitterId.audioRtp
          then 1 else 0) := by
  by_cases h1 : d.audio.port = d.audio.rtcpPort <;>
    by_cases h2 : d.video.port = d.video.rtcpPort <;>
    simp [applyRtcpMux, closeSplitter, h1, h2]

@[simp]
theorem applyRtcpMux_closeAudioRtcp (d : RtpDescription) (s : SessionState) :
    (applyRtcpMux d s).closeAudioRtcp = s.closeAudioRtcp
      + (if d.audio.port = d.audio.rtcpPort ∧ s.audioRtcpRef = SplitterId.audioRtcp
          then 1 else 0)
      + (if d.video.port = d.video.rtcpPort ∧ s.videoRtcpRef = SplitterId.audioRtcp
          then 1 else 0) := by
  by_cases h1 : d.audio.port = d.audio.rtcpPort <;>
    by_cases h2 : d.video.port = d.video.rtcpPort <;>
    simp [applyRtcpMux, closeSplitter, h1, h2]

@[simp]
theorem applyRtcpMux_closeVideoRtp (d : RtpDescription) (s : SessionState) :
    (applyRtcpMux d s).closeVideoRtp = s.closeVideoRtp
      + (if d.audio.port = d.audio.rtcpPort ∧ s.audioRtcpRef = SplitterId.videoRtp
          then 1 else 0)
      + (if d.video.port = d.video.rtcpPort ∧ s.videoRtcpRef = SplitterId.videoRtp
          then 1 else 0) := by
  by_cases h1 : d.audio.port = d.audio.rtcpPort <;>
    by_cases h2 : d.video.port = d.video.rtcpPort <;>
    simp [applyRtcpMux, closeSplitter, h1, h2]

@[simp]
theorem applyRtcpMux_closeVideoRtcp (d : RtpDescription) (s : SessionState) :
    (applyRtcpMux d s).closeVideoRtcp = s.closeVideoRtcp
      + (if d.audio.port = d.audio.rtcpPort ∧ s.audioRtcpRef = SplitterId.videoRtcp
          then 1 else 0)
      + (if d.video.port = d.video.rtcpPort ∧ s.videoRtcpRef = SplitterId.videoRtcp
          then 1 else 0) := by
  by_cases h1 : d.audio.port = d.audio.rtcpPort <;>
    by_cases h2 : d.video.port = d.video.rtcpPort <;>
    simp [applyRtcpMux, closeSplitter, h1, h2]

@[simp]
theorem natTraversalStep_hasCallEnded (d : RtpDescription) (s : SessionState) :
    (natTraversalStep d s).hasCallEnded = s.hasCallEnded := by
  by_cases h : d.video.iceUFrag.isSome = true <;> simp [natTraversalStep, h]

@[simp]
theorem natTraversalStep_audioRtcpRef (d : RtpDescription) (s : SessionState) :
    (natTraversalStep d s).audioRtcpRef = s.audioRtcpRef := by
  by_cases h : d.video.iceUFrag.isSome = true <;> simp [natTraversalStep, h]

@[simp]
theorem natTraversalStep_videoRtcpRef (d : RtpDescription) (s : SessionState) :
    (natTraversalStep d s).videoRtcpRef = s.videoRtcpRef := by
  by_cases h : d.video.iceUFrag.isSome = true <;> simp [natTraversalStep, h]

@[simp]
theorem natTraversalStep_closeAudioRtp (d : RtpDescription) (s : SessionState) :
    (natTraversalStep d s).closeAudioRtp = s.closeAudioRtp := by
  by_cases h : d.video.iceUFrag.isSome = true <;> simp [natTraversalStep, h]

@[simp]
theorem natTraversalStep_closeAudioRtcp (d : RtpDescription) (s : SessionState) :
    (natTraversalStep d s).closeAudioRtcp = s.closeAudioRtcp := by
  by_cases h : d.video.iceUFrag.isSome = true <;> simp [natTraversalStep, h]

@[simp]
theorem natTraversalStep_closeVideoRtp (d : RtpDescription) (s : SessionState) :
    (natTraversalStep d s).closeVideoRtp = s.closeVideoRtp := by
  by_cases h : d.video.iceUFrag.isSome = true <;> simp [natTraversalStep, h]

@[simp]
theorem natTraversalStep_closeVideoRtcp (d : RtpDescription) (s : SessionState) :
    (natTraversalStep d s).closeVideoRtcp = s.closeVideoRtcp := by
  by_cases h : d.video.iceUFrag.isSome = true <;> simp [natTraversalStep, h]

@[simp]
theorem natTraversalStep_ffHandlers (d : RtpDescription) (s : SessionState) :
    (natTraversalStep d s).ffHandlers = s.ffHandlers := by
  by_cases h : d.video.iceUFrag.isSome = true <;> simp [natTraversalStep, h]

@[simp]
theorem startTranscoder_ffHandlers (fo : FfmpegOptions) (d : RtpDescription)
    (a v : Nat) (s : SessionState) :
    (startTranscoder fo d a v s).ffHandlers =
      s.ffHandlers
        ++ (if (fo.video != VideoSpec.disabled) = true then
              [(SplitterId.videoRtp, v), (s.videoRtcpRef, v + 1)]
            else [])
        ++ [(SplitterId.audioRtp, a), (s.audioRtcpRef, a + 1)] := by
  cases hb : (fo.video != VideoSpec.disabled) <;>
    simp [startTranscoder, addFfHandler, hb]

theorem runStart_ok (env : StartEnv) (opts : SipOptions) (o : Option FfmpegOptions)
    (desc : RtpDescription) (rest : List InviteOutcome) :
    runStart env o (InviteOutcome.ok desc :: rest) opts =
      addLatchSubscriptions (natTraversalStep desc (applyRtcpMux desc
        (match o with
          | some fo =>
              startTranscoder fo desc env.audioPort env.videoPort
                { initialState opts with hasStarted := true }
          | none => { initialState opts with hasStarted := true }))) := by
  cases o <;>
    simp [runStart, start, resultState, startSuccessState, initialState,
      createSipCall, mkBlankState]

theorem initialState_audioRtcpRef (opts : SipOptions) :
    (initialState opts).audioRtcpRef = SplitterId.audioRtcp := rfl

theorem initialState_videoRtcpRef (opts : SipOptions) :
    (initialState opts).videoRtcpRef = SplitterId.videoRtcp := rfl

/-! ## Claim theorems -/

/-- Claim C1 (amended): teardown runs at most once.  From a not-yet-ended
state, any nonempty trigger sequence is equivalent to its first trigger
alone; the session transitions to Ended, the sip call is destroyed exactly
once, the one-time ended notification fires exactly once, the session
subscription set is cancelled, the keepalive timer subscription is gone,
and a bye is sent exactly when the first trigger requests one (explicit
stop or process exit, not a remote-initiated end); Ended is absorbing. -/
theorem c1_teardown_at_most_once (s : SessionState) (h : s.hasCallEnded = false)
    (t : TeardownTrigger) (ts : List TeardownTrigger) :
    runTriggers (t :: ts) s = callEnded (triggerSendsBye t) s
    ∧ (callEnded (triggerSendsBye t) s).hasCallEnded = true
    ∧ (callEnded (triggerSendsBye t) s).sendByeCount =
        s.sendByeCount + (if triggerSendsBye t = true then 1 else 0)
    ∧ (callEnded (triggerSendsBye t) s).sipDestroyCount = s.sipDestroyCount + 1
    ∧ (callEnded (triggerSendsBye t) s).endedNotifyCount = s.endedNotifyCount + 1
    ∧ (callEnded (triggerSendsBye t) s).unsubscribeCount = s.unsubscribeCount + 1
    ∧ (callEnded (triggerSendsBye t) s).activeSubscriptions = 0
    ∧ (callEnded (triggerSendsBye t) s).keepaliveSubscribed = false
    ∧ (∀ b, callEnded b (callEnded (triggerSendsBye t) s) = callEnded (triggerSendsBye t) s) := by
  refine ⟨runTriggers_of_ended ts _ (callEnded_hasCallEnded _ _),
    callEnded_hasCallEnded _ _, ?_, ?_, ?_, ?_, ?_, ?_,
    fun b => callEnded_callEnded b _ s⟩ <;>
    cases t <;> simp [callEnded, triggerSendsBye, closeSplitter, h]

/-- Claim C1 instance: two explicit stops on a fresh session behave as a
single one and send exactly one bye. -/
theorem c1_teardown_at_most_once_applied :
    runTriggers [TeardownTrigger.explicitStop, TeardownTrigger.explicitStop]
        (initialState opts0) =
      callEnded true (initialState opts0)
    ∧ (callEnded true (initialState opts0)).sendByeCount =
        (initialState opts0).sendByeCount + 1 := by
  have h := c1_teardown_at_most_once (initialState opts0) (by decide)
    TeardownTrigger.explicitStop [TeardownTrigger.explicitStop]
  exact ⟨h.1, h.2.2.1⟩

/-- Claim C1 counterexample: when the first teardown trigger is the
remote-initiated end and a stop follows, no bye is ever sent, against the
claim of exactly one termination signal for every trigger combination. -/
theorem c1_remote_first_sends_no_bye :
    (runTriggers [TeardownTrigger.remoteEnded, TeardownTrigger.explicitStop]
        (initialState opts0)).hasCallEnded = true
    ∧ (runTriggers [TeardownTrigger.remoteEnded, TeardownTrigger.explicitStop]
        (initialState opts0)).sendByeCount = 0
    ∧ ¬ (runTriggers [TeardownTrigger.remoteEnded, TeardownTrigger.explicitStop]
        (initialState opts0)).sendByeCount = 1 := by
  decide

/-- Claim C2 (amended): a start on an already started session fails with
AlreadyStarted and leaves the state untouched; a start on an already ended
session fails with AlreadyEnded, but only after the started flag has been
assigned true, so that path does change session state. -/
theorem c2_usage_errors :
    (∀ (env : StartEnv) (o : Option FfmpegOptions) (invites : List InviteOutcome)
        (s : SessionState), s.hasStarted = true →
        start env o invites s = StartResult.usageError UsageError.alreadyStarted s)
    ∧ (∀ (env : StartEnv) (o : Option FfmpegOptions) (invites : List InviteOutcome)
        (s : SessionState), s.hasStarted = false → s.hasCallEnded = true →
        start env o invites s =
          StartResult.usageError UsageError.alreadyEnded { s with hasStarted := true }) := by
  constructor
  · intro env o invites s h
    cases invites <;> simp [start, h]
  · intro env o invites s h1 h2
    cases invites <;> simp [start, h1, h2]

/-- Claim C2 instance: the two usage error paths at concrete states. -/
theorem c2_usage_errors_applied :
    start env0 none [] { initialState opts0 with hasStarted := true } =
      StartResult.usageError UsageError.alreadyStarted
        { initialState opts0 with hasStarted := true }
    ∧ start env0 none [] (stop (initialState opts0)) =
        StartResult.usageError UsageError.alreadyEnded
          { stop (initialState opts0) with hasStarted := true } := by
  exact ⟨c2_usage_errors.1 env0 none [] _ (by decide),
    c2_usage_errors.2 env0 none [] _ (by decide) (by decide)⟩

/-- Claim C2 counterexample: on a session that ended before ever being
started, the failing AlreadyEnded start call flips the internal started
flag from false to true, so the state is not unchanged. -/
theorem c2_already_ended_changes_state :
    (stop (initialState opts0)).hasStarted = false
    ∧ start env0 none [] (stop (initialState opts0)) =
        StartResult.usageError UsageError.alreadyEnded
          { stop (initialState opts0) with hasStarted := true }
    ∧ (resultState (start env0 none [] (stop (initialState opts0)))).hasStarted = true := by
  decide

/-- Claim C3 (amended): every teardown path closes all four underlying
handles, and after aliasing the original RTCP handle has been closed
exactly once and is never referenced again; but teardown closes the four
references without alias awareness, so when an RTCP reference is aliased to
its RTP sibling that RTP handle receives two close invocations (one per
reference), while without aliasing every handle is closed exactly once. -/
theorem c3_close_counts (s : SessionState) (h : s.hasCallEnded = false) :
    (s.audioRtcpRef = SplitterId.audioRtcp → s.videoRtcpRef = SplitterId.videoRtcp →
        (stop s).closeAudioRtp = s.closeAudioRtp + 1
        ∧ (stop s).closeAudioRtcp = s.closeAudioRtcp + 1
        ∧ (stop s).closeVideoRtp = s.closeVideoRtp + 1
        ∧ (stop s).closeVideoRtcp = s.closeVideoRtcp + 1)
    ∧ (s.audioRtcpRef = SplitterId.audioRtp →
        s.videoRtcpRef = SplitterId.videoRtcp ∨ s.videoRtcpRef = SplitterId.videoRtp →
        (stop s).closeAudioRtp = s.closeAudioRtp + 2
        ∧ (stop s).closeAudioRtcp = s.closeAudioRtcp)
    ∧ (s.videoRtcpRef = SplitterId.videoRtp →
        s.audioRtcpRef = SplitterId.audioRtcp ∨ s.audioRtcpRef = SplitterId.audioRtp →
        (stop s).closeVideoRtp = s.closeVideoRtp + 2
        ∧ (stop s).closeVideoRtcp = s.closeVideoRtcp)
    ∧ (∀ (env : StartEnv) (opts : SipOptions) (desc : RtpDescription)
        (rest : List InviteOutcome),
        desc.audio.port = desc.audio.rtcpPort →
        (runStart env none (InviteOutcome.ok desc :: rest) opts).closeAudioRtcp = 1
        ∧ (runStart env none (InviteOutcome.ok desc :: rest) opts).audioRtcpRef =
            SplitterId.audioRtp
        ∧ (stop (runStart env none (InviteOutcome.ok desc :: rest) opts)).closeAudioRtcp = 1
        ∧ (stop (runStart env none (InviteOutcome.ok desc :: rest) opts)).closeAudioRtp = 2) := by
  refine ⟨?_, ?_, ?_, ?_⟩
  · intro h1 h2
    refine ⟨?_, ?_, ?_, ?_⟩ <;> simp [stop, callEnded, closeSplitter, h, h1, h2]
  · intro h1 h2
    rcases h2 with h2 | h2 <;> constructor <;>
      simp [stop, callEnded, closeSplitter, h, h1, h2]
  · intro h1 h2
    rcases h2 with h2 | h2 <;> constructor <;>
      simp [stop, callEnded, closeSplitter, h, h1, h2]
  · intro env opts desc rest hmux
    have hR1 : (runStart env none (InviteOutcome.ok desc :: rest) opts).hasCallEnded = false := by
      simp [runStart_ok, addLatchSubscriptions, initialState, createSipCall, mkBlankState]
    have hR2 : (runStart env none (InviteOutcome.ok desc :: rest) opts).audioRtcpRef =
        SplitterId.audioRtp := by
      simp [runStart_ok, addLatchSubscriptions, hmux, initialState, createSipCall, mkBlankState]
    have hR4 : (runStart env none (InviteOutcome.ok desc :: rest) opts).closeAudioRtcp = 1 := by
      simp [runStart_ok, addLatchSubscriptions, hmux, initialState, createSipCall, mkBlankState]
    have hR5 : (runStart env none (InviteOutcome.ok desc :: rest) opts).closeAudioRtp = 0 := by
      simp [runStart_ok, addLatchSubscriptions, hmux, initialState, createSipCall, mkBlankState]
    have hR3 : (runStart env none (InviteOutcome.ok desc :: rest) opts).videoRtcpRef =
        (if desc.video.port = desc.video.rtcpPort then SplitterId.videoRtp
          else SplitterId.videoRtcp) := by
      simp [runStart_ok, addLatchSubscriptions, initialState, createSipCall, mkBlankState]
    refine ⟨hR4, hR2, ?_, ?_⟩ <;>
      by_cases hv : desc.video.port = desc.video.rtcpPort <;>
      simp [stop, callEnded, closeSplitter, hR1, hR2, hR3, hR4, hR5, hv]

/-- Claim C3 instance: the close-count bookkeeping of a single stop at a
concrete fresh session and at a concrete aliased session. -/
theorem c3_close_counts_applied :
    (stop (initialState opts0)).closeAudioRtcp = 1
    ∧ (runStart env0 none [InviteOutcome.ok descMuxAudio] opts0).closeAudioRtcp = 1
    ∧ (stop (runStart env0 none [InviteOutcome.ok descMuxAudio] opts0)).closeAudioRtp = 2
    ∧ (stop (runStart env0 none [InviteOutcome.ok descMuxBoth] opts0)).closeAudioRtp =
        (runStart env0 none [InviteOutcome.ok descMuxBoth] opts0).closeAudioRtp + 2
    ∧ (stop (runStart env0 none [InviteOutcome.ok descMuxBoth] opts0)).closeVideoRtp =
        (runStart env0 none [InviteOutcome.ok descMuxBoth] opts0).closeVideoRtp + 2 := by
  have h1 := (c3_close_counts (initialState opts0) (by decide)).1 (by decide) (by decide)
  have h2 := (c3_close_counts (initialState opts0) (by decide)).2.2.2 env0 opts0
    descMuxAudio [] (by decide)
  have h3 := (c3_close_counts (runStart env0 none [InviteOutcome.ok descMuxBoth] opts0)
    (by decide)).2.1 (by decide) (Or.inr (by decide))
  have h4 := (c3_close_counts (runStart env0 none [InviteOutcome.ok descMuxBoth] opts0)
    (by decide)).2.2.1 (by decide) (Or.inr (by decide))
  exact ⟨h1.2.1, h2.1, h2.2.2.2, h3.1, h4.1⟩

/-- Claim C3 counterexample: with audio RTCP multiplexing, the audio RTP
handle (aliased into the audio RTCP reference) receives two close
invocations by the time teardown completes, not exactly one as claimed. -/
theorem c3_aliased_handle_closed_twice :
    (stop (runStart env0 none [InviteOutcome.ok descMuxAudio] opts0)).closeAudioRtp = 2
    ∧ ¬ (stop (runStart env0 none [InviteOutcome.ok descMuxAudio] opts0)).closeAudioRtp = 1 := by
  decide

/-- Claim C5: per-stream rtcp-mux detection during start: when the remote
RTP and RTCP ports of a stream are equal, the local RTCP splitter of that
stream is closed and its reference becomes identical to the RTP splitter of
that stream; when they differ, the reference and the handle are untouched. -/
theorem c5_rtcp_mux_detection (env : StartEnv) (opts : SipOptions)
    (o : Option FfmpegOptions) (desc : RtpDescription) (rest : List InviteOutcome) :
    (desc.audio.port = desc.audio.rtcpPort →
        (runStart env o (InviteOutcome.ok desc :: rest) opts).audioRtcpRef =
          SplitterId.audioRtp
        ∧ (runStart env o (InviteOutcome.ok desc :: rest) opts).closeAudioRtcp = 1)
    ∧ (desc.audio.port ≠ desc.audio.rtcpPort →
        (runStart env o (InviteOutcome.ok desc :: rest) opts).audioRtcpRef =
          SplitterId.audioRtcp
        ∧ (runStart env o (InviteOutcome.ok desc :: rest) opts).closeAudioRtcp = 0)
    ∧ (desc.video.port = desc.video.rtcpPort →
        (runStart env o (InviteOutcome.ok desc :: rest) opts).videoRtcpRef =
          SplitterId.videoRtp
        ∧ (runStart env o (InviteOutcome.ok desc :: rest) opts).closeVideoRtcp = 1)
    ∧ (desc.video.port ≠ desc.video.rtcpPort →
        (runStart env o (InviteOutcome.ok desc :: rest) opts).videoRtcpRef =
          SplitterId.videoRtcp
        ∧ (runStart env o (InviteOutcome.ok desc :: rest) opts).closeVideoRtcp = 0) := by
  refine ⟨?_, ?_, ?_, ?_⟩ <;> intro h1 <;> constructor <;> cases o <;>
    simp [runStart_ok, addLatchSubscriptions, h1, initialState, createSipCall, mkBlankState]

/-- Claim C5 instance: mux detection at concrete descriptions, multiplexed
and not. -/
theorem c5_rtcp_mux_detection_applied :
    ((runStart env0 none [InviteOutcome.ok descMuxBoth] opts0).audioRtcpRef =
        SplitterId.audioRtp
      ∧ (runStart env0 none [InviteOutcome.ok descMuxBoth] opts0).closeAudioRtcp = 1)
    ∧ ((runStart env0 none [InviteOutcome.ok descMuxBoth] opts0).videoRtcpRef =
        SplitterId.videoRtp
      ∧ (runStart env0 none [InviteOutcome.ok descMuxBoth] opts0).closeVideoRtcp = 1)
    ∧ ((runStart env0 none [InviteOutcome.ok descIce] opts0).audioRtcpRef =
        SplitterId.audioRtcp
      ∧ (runStart env0 none [InviteOutcome.ok descIce] opts0).closeAudioRtcp = 0)
    ∧ ((runStart env0 none [InviteOutcome.ok descIce] opts0).videoRtcpRef =
        SplitterId.videoRtcp
      ∧ (runStart env0 none [InviteOutcome.ok descIce] opts0).closeVideoRtcp = 0) :=
  ⟨(c5_rtcp_mux_detection env0 opts0 none descMuxBoth []).1 (by decide),
    (c5_rtcp_mux_detection env0 opts0 none descMuxBoth []).2.2.1 (by decide),
    (c5_rtcp_mux_detection env0 opts0 none descIce []).2.1 (by decide),
    (c5_rtcp_mux_detection env0 opts0 none descIce []).2.2.2 (by decide)⟩

/-- Claim C6: an invite failing with the expired sentinel makes start fetch
refreshed options from the device, destroy the previous sip call and build
one from the refreshed options, reset the started flag and re-enter start
with the same transcode spec, all without teardown; any other invite
failure tears the session down with a bye and re-raises the error. -/
theorem c6_invite_failure_paths (env : StartEnv) (o : Option FfmpegOptions)
    (rest : List InviteOutcome) (s : SessionState) (c : Nat)
    (h1 : s.hasStarted = false) (h2 : s.hasCallEnded = false)
    (h3 : s.hasSipCall = true) :
    (start env o (InviteOutcome.err SipError.expiredDing :: rest) s =
        start env o rest (retryState env s)
      ∧ (retryState env s).hasStarted = false
      ∧ (retryState env s).hasCallEnded = false
      ∧ (retryState env s).sipDestroyCount = s.sipDestroyCount + 1
      ∧ (retryState env s).sipCreateCount = s.sipCreateCount + 1
      ∧ (retryState env s).sipCallOptions = env.updatedSipOptions s.sipOptions.dingId
      ∧ (retryState env s).sendByeCount = s.sendByeCount
      ∧ (∀ id, closeCount (retryState env s) id = closeCount s id))
    ∧ (start env o (InviteOutcome.err (SipError.failed c) :: rest) s =
        StartResult.fatal (SipError.failed c) (callEnded true { s with hasStarted := true })
      ∧ (callEnded true { s with hasStarted := true }).hasCallEnded = true
      ∧ (callEnded true { s with hasStarted := true }).sendByeCount = s.sendByeCount + 1) := by
  refine ⟨⟨?_, ?_, ?_, ?_, ?_, ?_, ?_, ?_⟩, ?_, callEnded_hasCallEnded _ _, ?_⟩
  · simp [start, retryState, h1, h2]
  · rfl
  · simp [retryState, createSipCall, h2, h3]
  · simp [retryState, createSipCall, h3]
  · simp [retryState, createSipCall, h3]
  · simp [retryState, createSipCall, h3]
  · simp [retryState, createSipCall, h3]
  · intro id
    cases id <;> simp [retryState, createSipCall, closeCount, h3]
  · simp [start, h1, h2]
  · simp [callEnded, closeSplitter, h2]

/-- Claim C6 instance: both invite failure paths at a concrete session. -/
theorem c6_invite_failure_paths_applied :
    start env0 none [InviteOutcome.err SipError.expiredDing] (initialState opts0) =
      start env0 none [] (retryState env0 (initialState opts0))
    ∧ (retryState env0 (initialState opts0)).sipDestroyCount =
        (initialState opts0).sipDestroyCount + 1
    ∧ start env0 none [InviteOutcome.err (SipError.failed 7)] (initialState opts0) =
        StartResult.fatal (SipError.failed 7)
          (callEnded true { initialState opts0 with hasStarted := true }) := by
  have h := c6_invite_failure_paths env0 none [] (initialState opts0) 7
    (by decide) (by decide) (by decide)
  exact ⟨h.1.1, h.1.2.2.2.1, h.2.1⟩

/-- Claim C4: the NAT-traversal branch is mutually exclusive.  With a video
ICE user fragment, stun responders are installed on the audio and video RTP
splitters, exactly one immediate round of binding requests is sent, and the
keepalive timer is never subscribed, so no further round ever fires; without
one, no responder is installed, no synchronous round is sent, the keepalive
subscription is active, rounds fire at 0 ms and every 500 ms thereafter,
and teardown cancels the subscription. -/
theorem c4_nat_traversal_branch (env : StartEnv) (opts : SipOptions)
    (o : Option FfmpegOptions) (desc : RtpDescription) (rest : List InviteOutcome) :
    (desc.video.iceUFrag.isSome = true →
        (runStart env o (InviteOutcome.ok desc :: rest) opts).responders =
          [SplitterId.audioRtp, SplitterId.videoRtp]
        ∧ (runStart env o (InviteOutcome.ok desc :: rest) opts).stunRounds.length = 1
        ∧ (runStart env o (InviteOutcome.ok desc :: rest) opts).keepaliveSubscribed = false
        ∧ (∀ t, stunRoundsByTime (runStart env o (InviteOutcome.ok desc :: rest) opts) t = 1))
    ∧ (desc.video.iceUFrag = none →
        (runStart env o (InviteOutcome.ok desc :: rest) opts).responders = []
        ∧ (runStart env o (InviteOutcome.ok desc :: rest) opts).stunRounds = []
        ∧ (runStart env o (InviteOutcome.ok desc :: rest) opts).keepaliveSubscribed = true
        ∧ (∀ t, stunRoundsByTime (runStart env o (InviteOutcome.ok desc :: rest) opts) t =
            t / 500 + 1)
        ∧ (∀ b, (callEnded b (runStart env o (InviteOutcome.ok desc :: rest) opts)).keepaliveSubscribed = false)) := by
  have hRe : (runStart env o (InviteOutcome.ok desc :: rest) opts).hasCallEnded = false := by
    cases o <;>
      simp [runStart_ok, addLatchSubscriptions, initialState, createSipCall, mkBlankState]
  constructor
  · intro hice
    refine ⟨?_, ?_, ?_, ?_⟩ <;>
      [skip; skip; skip; intro t] <;>
      cases o <;>
      simp [runStart_ok, addLatchSubscriptions, natTraversalStep, stunRoundsByTime, hice,
        initialState, createSipCall, mkBlankState]
  · intro hnone
    refine ⟨?_, ?_, ?_, ?_, ?_⟩
    · cases o <;>
        simp [runStart_ok, addLatchSubscriptions, natTraversalStep, hnone,
          initialState, createSipCall, mkBlankState]
    · cases o <;>
        simp [runStart_ok, addLatchSubscriptions, natTraversalStep, hnone,
          initialState, createSipCall, mkBlankState]
    · cases o <;>
        simp [runStart_ok, addLatchSubscriptions, natTraversalStep, hnone,
          initialState, createSipCall, mkBlankState]
    · intro t
      cases o <;>
        simp [runStart_ok, addLatchSubscriptions, natTraversalStep, stunRoundsByTime, hnone,
          initialState, createSipCall, mkBlankState]
    · intro b
      cases b <;> simp [callEnded, closeSplitter, hRe]

/-- Claim C4 instance: both branches at concrete media descriptions. -/
theorem c4_nat_traversal_branch_applied :
    ((runStart env0 none [InviteOutcome.ok descIce] opts0).keepaliveSubscribed = false
      ∧ (runStart env0 none [InviteOutcome.ok descIce] opts0).responders =
          [SplitterId.audioRtp, SplitterId.videoRtp]
      ∧ stunRoundsByTime (runStart env0 none [InviteOutcome.ok descIce] opts0) 2500 = 1)
    ∧ ((runStart env0 none [InviteOutcome.ok descNoIce] opts0).keepaliveSubscribed = true
      ∧ stunRoundsByTime (runStart env0 none [InviteOutcome.ok descNoIce] opts0) 0 = 1
      ∧ stunRoundsByTime (runStart env0 none [InviteOutcome.ok descNoIce] opts0) 2500 = 6) := by
  have h1 := (c4_nat_traversal_branch env0 opts0 none descIce []).1 (by decide)
  have h2 := (c4_nat_traversal_branch env0 opts0 none descNoIce []).2 (by decide)
  exact ⟨⟨h1.2.2.1, h1.1, h1.2.2.2 2500⟩,
    ⟨h2.2.2.1, h2.2.2.2.1 0, h2.2.2.2.1 2500⟩⟩

/-- Claim C9 (amended): each synchronous round consists of exactly one
request per stream; the audio request is built from the audio RTP splitter,
the current audio RTCP reference, the audio user fragment and stream type
audio; the video request is built from the video RTP splitter, the video
user fragment and stream type video, but the source passes the AUDIO RTCP
reference as its rtcpSplitter, not the video one. -/
theorem c9_stun_round_arguments (env : StartEnv) (opts : SipOptions)
    (o : Option FfmpegOptions) (desc : RtpDescription) (rest : List InviteOutcome)
    (hice : desc.video.iceUFrag.isSome = true)
    (haud : desc.audio.port ≠ desc.audio.rtcpPort) :
    (runStart env o (InviteOutcome.ok desc :: rest) opts).stunRounds =
      [ [ { rtpSplitter := SplitterId.audioRtp, rtcpSplitter := SplitterId.audioRtcp,
            localUfrag := UfragSel.audio, type := StreamType.audio },
          { rtpSplitter := SplitterId.videoRtp, rtcpSplitter := SplitterId.audioRtcp,
            localUfrag := UfragSel.video, type := StreamType.video } ] ] := by
  cases o <;>
    simp [runStart_ok, addLatchSubscriptions, natTraversalStep, sendStunRequests,
      hice, haud, initialState, createSipCall, mkBlankState]

/-- Claim C9 instance: the round sent at a concrete ICE-capable
description without port multiplexing. -/
theorem c9_stun_round_arguments_applied :
    (runStart env0 none [InviteOutcome.ok descIce] opts0).stunRounds =
      [ [ { rtpSplitter := SplitterId.audioRtp, rtcpSplitter := SplitterId.audioRtcp,
            localUfrag := UfragSel.audio, type := StreamType.audio },
          { rtpSplitter := SplitterId.videoRtp, rtcpSplitter := SplitterId.audioRtcp,
            localUfrag := UfragSel.video, type := StreamType.video } ] ] :=
  c9_stun_round_arguments env0 opts0 none descIce [] (by decide) (by decide)

/-- Claim C9 counterexample: the video binding request is constructed with
the audio RTCP splitter, which is distinct from the video RTCP splitter the
claim names. -/
theorem c9_video_request_not_video_rtcp :
    ((runStart env0 none [InviteOutcome.ok descIce] opts0).stunRounds.head?.getD []).getLast?
      = some { rtpSplitter := SplitterId.videoRtp, rtcpSplitter := SplitterId.audioRtcp,
               localUfrag := UfragSel.video, type := StreamType.video }
    ∧ ¬ ((runStart env0 none [InviteOutcome.ok descIce] opts0).stunRounds.head?.getD []).getLast?
      = some { rtpSplitter := SplitterId.videoRtp, rtcpSplitter := SplitterId.videoRtcp,
               localUfrag := UfragSel.video, type := StreamType.video } := by
  decide

/-- Claim C10: with a transcode spec, forwarding handlers are registered
before rtcp-mux detection; when the remote multiplexes a stream, the RTCP
forwarding handler of that stream sits on the original RTCP splitter, which
is then closed, while the RTP splitter that the RTCP reference now aliases
carries only the handler forwarding to the RTP port of the transcoder. -/
theorem c10_handlers_registered_before_mux (env : StartEnv) (opts : SipOptions)
    (fo : FfmpegOptions) (desc : RtpDescription) (rest : List InviteOutcome)
    (ha : desc.audio.port = desc.audio.rtcpPort) :
    ((SplitterId.audioRtcp, env.audioPort + 1) ∈
        (runStart env (some fo) (InviteOutcome.ok desc :: rest) opts).ffHandlers)
    ∧ (runStart env (some fo) (InviteOutcome.ok desc :: rest) opts).closeAudioRtcp = 1
    ∧ (runStart env (some fo) (InviteOutcome.ok desc :: rest) opts).audioRtcpRef =
        SplitterId.audioRtp
    ∧ ((SplitterId.audioRtp, env.audioPort) ∈
        (runStart env (some fo) (InviteOutcome.ok desc :: rest) opts).ffHandlers)
    ∧ (∀ q ∈ (runStart env (some fo) (InviteOutcome.ok desc :: rest) opts).ffHandlers,
        q.1 = SplitterId.audioRtp → q.2 = env.audioPort)
    ∧ (fo.video ≠ VideoSpec.disabled → desc.video.port = desc.video.rtcpPort →
        ((SplitterId.videoRtcp, env.videoPort + 1) ∈
            (runStart env (some fo) (InviteOutcome.ok desc :: rest) opts).ffHandlers)
        ∧ (runStart env (some fo) (InviteOutcome.ok desc :: rest) opts).videoRtcpRef =
            SplitterId.videoRtp
        ∧ (∀ q ∈ (runStart env (some fo) (InviteOutcome.ok desc :: rest) opts).ffHandlers,
            q.1 = SplitterId.videoRtp → q.2 = env.videoPort)) := by
  have hff : (runStart env (some fo) (InviteOutcome.ok desc :: rest) opts).ffHandlers =
      (if (fo.video != VideoSpec.disabled) = true then
          [(SplitterId.videoRtp, env.videoPort), (SplitterId.videoRtcp, env.videoPort + 1)]
        else [])
      ++ [(SplitterId.audioRtp, env.audioPort), (SplitterId.audioRtcp, env.audioPort + 1)] := by
    simp [runStart_ok, addLatchSubscriptions, initialState, createSipCall, mkBlankState]
  refine ⟨?_, ?_, ?_, ?_, ?_, ?_⟩
  · cases hb : (fo.video != VideoSpec.disabled) <;> simp [hff, hb]
  · simp [runStart_ok, addLatchSubscriptions, ha, initialState, createSipCall, mkBlankState]
  · simp [runStart_ok, addLatchSubscriptions, ha, initialState, createSipCall, mkBlankState]
  · cases hb : (fo.video != VideoSpec.disabled) <;> simp [hff, hb]
  · intro q hq h1
    rw [hff] at hq
    cases hb : (fo.video != VideoSpec.disabled) <;> simp [hb] at hq
    · rcases hq with hq | hq <;> subst hq <;> simp_all
    · rcases hq with hq | hq | hq | hq <;> subst hq <;> simp_all
  · intro hv hmuxv
    have hb : (fo.video != VideoSpec.disabled) = true := by
      cases hfo : fo.video
      · exact absurd hfo hv
      · rfl
      · rfl
    refine ⟨?_, ?_, ?_⟩
    · simp [hff, hb]
    · simp [runStart_ok, addLatchSubscriptions, hmuxv, initialState, createSipCall,
        mkBlankState]
    · intro q hq h1
      rw [hff] at hq
      simp [hb] at hq
      rcases hq with hq | hq | hq | hq <;> subst hq <;> simp_all

/-- Claim C10 instance: handler layout at a concrete multiplexed session
with video transcoding enabled. -/
theorem c10_handlers_registered_before_mux_applied :
    ((SplitterId.audioRtcp, env0.audioPort + 1) ∈
        (runStart env0 (some ffoDefault) [InviteOutcome.ok descMuxBoth] opts0).ffHandlers)
    ∧ (runStart env0 (some ffoDefault) [InviteOutcome.ok descMuxBoth] opts0).audioRtcpRef =
        SplitterId.audioRtp
    ∧ (runStart env0 (some ffoDefault) [InviteOutcome.ok descMuxBoth] opts0).videoRtcpRef =
        SplitterId.videoRtp := by
  have h := c10_handlers_registered_before_mux env0 opts0 ffoDefault descMuxBoth []
    (by decide)
  exact ⟨h.1, h.2.2.1, (h.2.2.2.2.2 (by decide) (by decide)).2.1⟩

/-- Claim C8: with a transcode spec, forwarding handlers are registered on
exactly the audio RTP and audio RTCP splitters, plus the video RTP and
video RTCP splitters exactly when video transcoding is enabled; every such
handler drops stun-classified packets and redirects every other packet to
the corresponding local transcoder port. -/
theorem c8_packet_forwarding (env : StartEnv) (opts : SipOptions)
    (fo : FfmpegOptions) (desc : RtpDescription) (rest : List InviteOutcome) :
    (fo.video = VideoSpec.disabled →
        (runStart env (some fo) (InviteOutcome.ok desc :: rest) opts).ffHandlers =
          [(SplitterId.audioRtp, env.audioPort),
           (SplitterId.audioRtcp, env.audioPort + 1)])
    ∧ (fo.video ≠ VideoSpec.disabled →
        (runStart env (some fo) (InviteOutcome.ok desc :: rest) opts).ffHandlers =
          [(SplitterId.videoRtp, env.videoPort),
           (SplitterId.videoRtcp, env.videoPort + 1),
           (SplitterId.audioRtp, env.audioPort),
           (SplitterId.audioRtcp, env.audioPort + 1)])
    ∧ (∀ (port : Nat) (m : Packet), isStunMessage m = true →
        ffmpegMessageHandler port m = none)
    ∧ (∀ (port : Nat) (m : Packet), isStunMessage m = false →
        ffmpegMessageHandler port m = some port) := by
  refine ⟨?_, ?_, ?_, ?_⟩
  · intro h
    have hb : (fo.video != VideoSpec.disabled) = false := by rw [h]; rfl
    simp [runStart_ok, addLatchSubscriptions, hb, initialState, createSipCall, mkBlankState]
  · intro h
    have hb : (fo.video != VideoSpec.disabled) = true := by
      cases hfo : fo.video
      · exact absurd hfo h
      · rfl
      · rfl
    simp [runStart_ok, addLatchSubscriptions, hb, initialState, createSipCall, mkBlankState]
  · intro port m h
    simp [ffmpegMessageHandler, h]
  · intro port m h
    simp [ffmpegMessageHandler, h]

/-- Claim C8 instance: handler sets with video enabled and disabled, and
the handler behavior on a stun packet and a media packet. -/
theorem c8_packet_forwarding_applied :
    (runStart env0 (some ffoNoVideo) [InviteOutcome.ok descNoIce] opts0).ffHandlers =
      [(SplitterId.audioRtp, 52000), (SplitterId.audioRtcp, 52001)]
    ∧ (runStart env0 (some ffoDefault) [InviteOutcome.ok descNoIce] opts0).ffHandlers =
        [(SplitterId.videoRtp, 51000), (SplitterId.videoRtcp, 51001),
         (SplitterId.audioRtp, 52000), (SplitterId.audioRtcp, 52001)]
    ∧ ffmpegMessageHandler 52000 packetStun = none
    ∧ ffmpegMessageHandler 52000 packetMedia = some 52000 := by
  have h := c8_packet_forwarding env0 opts0 ffoNoVideo descNoIce []
  have h2 := c8_packet_forwarding env0 opts0 ffoDefault descNoIce []
  exact ⟨h.1 (by decide), h2.2.1 (by decide), h.2.2.1 52000 packetStun (by decide),
    h.2.2.2 52000 packetMedia (by decide)⟩

/-! ## String helper lemmas for the sdp document -/

theorem isMediaLine_mAudio (x y : String) :
    isMediaLine (("m=audio " ++ x) ++ y) = true := by
  obtain ⟨a⟩ := x
  obtain ⟨b⟩ := y
  rfl

theorem mAudio_ne_empty (x y : String) :
    ((("m=audio " ++ x) ++ y) != "") = true := by
  obtain ⟨a⟩ := x
  obtain ⟨b⟩ := y
  rfl

theorem isMediaLine_aRtcp (x y : String) :
    isMediaLine (("a=rtcp:" ++ x) ++ y) = false := by
  obtain ⟨a⟩ := x
  obtain ⟨b⟩ := y
  rfl

/-- Claim C7: the document written to the transcoding process is the fixed
preamble followed by the audio media block (payload types 0 and 101,
PCMU/8000, the audio crypto attribute, an rtcp attribute on audio port
plus one), with the video media block (payload 99, H264/90000, video
crypto, rtcp on video port plus one) appended exactly when the video spec
is not the explicit disable marker; falsy lines are filtered before the
newline join, so the audio-only document has exactly one media line and no
blank lines. -/
theorem c7_sdp_document (audioPort videoPort : Nat) (desc : RtpDescription)
    (fo : FfmpegOptions) (s : SessionState)
    (hc : isMediaLine desc.audio.cryptoLine = false) :
    (startTranscoder fo desc audioPort videoPort s).sdpWritten =
      some (writtenSdp audioPort videoPort desc (fo.video != VideoSpec.disabled))
    ∧ inputSdpLines audioPort videoPort desc false =
        [ "v=0",
          "o=105202070 3747 461 IN IP4 127.0.0.1",
          "s=Talk",
          "c=IN IP4 127.0.0.1",
          "b=AS:380",
          "t=0 0",
          "a=rtcp-xr:rcvr-rtt=all:10000 stat-summary=loss,dup,jitt,TTL voip-metrics",
          "m=audio " ++ toString audioPort ++ " RTP/SAVP 0 101",
          "a=rtpmap:0 PCMU/8000",
          desc.audio.cryptoLine,
          "a=rtcp:" ++ toString (audioPort + 1) ++ " IN IP4 127.0.0.1" ]
    ∧ inputSdpLines audioPort videoPort desc true =
        inputSdpLines audioPort videoPort desc false ++
          [ "m=video " ++ toString videoPort ++ " RTP/SAVP 99",
            "a=rtpmap:99 H264/90000",
            desc.video.cryptoLine,
            "a=rtcp:" ++ toString (videoPort + 1) ++ " IN IP4 127.0.0.1" ]
    ∧ mediaLineCount
        ((inputSdpLines audioPort videoPort desc false).filter (fun x => x != "")) = 1
    ∧ (∀ l ∈ (inputSdpLines audioPort videoPort desc false).filter (fun x => x != ""),
        l ≠ "") := by
  refine ⟨rfl, rfl, rfl, ?_, ?_⟩
  · have e1 : isMediaLine "v=0" = false := rfl
    have e2 : isMediaLine "o=105202070 3747 461 IN IP4 127.0.0.1" = false := rfl
    have e3 : isMediaLine "s=Talk" = false := rfl
    have e4 : isMediaLine "c=IN IP4 127.0.0.1" = false := rfl
    have e5 : isMediaLine "b=AS:380" = false := rfl
    have e6 : isMediaLine "t=0 0" = false := rfl
    have e7 : isMediaLine
        "a=rtcp-xr:rcvr-rtt=all:10000 stat-summary=loss,dup,jitt,TTL voip-metrics"
        = false := rfl
    have e8 : isMediaLine "a=rtpmap:0 PCMU/8000" = false := rfl
    rw [mediaLineCount, List.filter_filter]
    simp [inputSdpLines, List.filter_cons, e1, e2, e3, e4, e5, e6, e7, e8, hc,
      isMediaLine_mAudio, mAudio_ne_empty, isMediaLine_aRtcp]
  · intro l hl
    have h2 := List.of_mem_filter hl
    intro hEq
    subst hEq
    simp at h2

/-- Claim C7 instance: the audio-only document at concrete ports and a
concrete crypto line. -/
theorem c7_sdp_document_applied :
    (startTranscoder ffoNoVideo descNoIce 52000 51000 (initialState opts0)).sdpWritten =
      some (writtenSdp 52000 51000 descNoIce (ffoNoVideo.video != VideoSpec.disabled))
    ∧ mediaLineCount
        ((inputSdpLines 52000 51000 descNoIce false).filter (fun x => x != "")) = 1 := by
  have h := c7_sdp_document 52000 51000 descNoIce ffoNoVideo (initialState opts0) (by decide)
  exact ⟨h.1, h.2.2.2.1⟩
